import Mathlib

/-
Verification of the live display orchestrator of the argard terminal weather
dashboard (argard.py).

Shallow embedding notes:
  * Python dictionaries carrying observation / hourly-forecast records are
    modelled as association lists `List (String × String)`; the empty dict
    becomes `[]`.
  * Wall-clock times and the refresh interval are modelled as integers
    (an arbitrary subdivision of the second); only comparisons of times
    enter the control logic, so the unit is irrelevant.
  * The `DisplayMode` class is modelled as an immutable record; its mutating
    methods become state-to-state functions.  The `threading.Lock` field and
    the disabled auto-switch machinery (`enable_auto_switch = False`,
    `auto_toggle` is never called from `main`) are omitted, as is the
    keyboard-reading thread itself: commands arriving on the input queue are
    an input of each tick.
  * Network responses are an input of each fetch: `FetchResponse` covers the
    three outcomes of `urlopen` visible in the code (an exception, a non-200
    status, and a 200 status with a parsed JSON body).
-/

namespace Argard

/-- Observation record: the Python dict for one observation, as an
association list (empty dict = `[]`). -/
abbrev Obs := List (String × String)

/-- One hourly-forecast record, likewise as an association list. -/
abbrev Hourly := List (String × String)

/-- Python string truthiness choice `a or b`: the left operand when it is
nonempty, otherwise the right. -/
def pyOr (a b : String) : String := if a = "" then b else a

/-- Display mode state (class `DisplayMode`, argard.py lines 52-91): the
`full_forecast` mode bit and the `mode_changed` dirty flag. -/
structure DisplayMode where
  full_forecast : Bool
  mode_changed : Bool
deriving DecidableEq, Repr

/-- Initial state built by `DisplayMode.__init__` (lines 53-59). -/
def DisplayMode.init : DisplayMode := ⟨false, false⟩

/-- Method `toggle_forecast` (lines 61-64): flip `full_forecast`, set
`mode_changed`. -/
def DisplayMode.toggle_forecast (s : DisplayMode) : DisplayMode :=
  ⟨!s.full_forecast, true⟩

/-- Method `is_full_forecast` (lines 78-80). -/
def DisplayMode.is_full_forecast (s : DisplayMode) : Bool :=
  s.full_forecast

/-- Method `has_mode_changed` (lines 82-87): read and clear the flag,
returning its prior value together with the successor state. -/
def DisplayMode.has_mode_changed (s : DisplayMode) : Bool × DisplayMode :=
  if s.mode_changed then (true, ⟨s.full_forecast, false⟩) else (false, s)

/-- Method `clear_mode_change` (lines 89-91). -/
def DisplayMode.clear_mode_change (s : DisplayMode) : DisplayMode :=
  ⟨s.full_forecast, false⟩

/-- Iterated `toggle_forecast`: `toggles n s` applies the method `n` times. -/
def toggles : Nat → DisplayMode → DisplayMode
  | 0, s => s
  | n + 1, s => toggles n s.toggle_forecast

/-- Modelled HTTP interaction for one provider call: `urlopen` either raises
(`exn`, caught by the enclosing `except`), or yields a status code and, for
status 200, a parsed JSON field of interest (`none` when the field is absent
from the response body). -/
inductive FetchResponse (α : Type) where
  | exn (msg : String)
  | ok (status : Nat) (body : Option α)
deriving DecidableEq, Repr

/-- Function `fetch_observation` (lines 97-108): on any exception return
`({}, "Error: ...")`; on a non-200 status return `({}, "HTTP <status>")`;
otherwise take `data.get("observations") or []` and return its head with an
empty error, or `({}, "No observations")` when the list is empty. -/
def fetch_observation (resp : FetchResponse (List Obs)) : Obs × String :=
  match resp with
  | .exn e => ([], "Error: " ++ e)
  | .ok status body =>
    if status ≠ 200 then ([], "HTTP " ++ toString status)
    else
      match body.getD [] with
      | [] => ([], "No observations")
      | o :: _ => (o, "")

/-- Function `fetch_hourly_forecast` (lines 110-120): on any exception return
`([], "Error: ...")`; on a non-200 status return `([], "HTTP <status>")`;
otherwise return `data.get("hourly", [])` with an empty error. -/
def fetch_hourly_forecast (resp : FetchResponse (List Hourly)) :
    List Hourly × String :=
  match resp with
  | .exn e => ([], "Error: " ++ e)
  | .ok status body =>
    if status ≠ 200 then ([], "HTTP " ++ toString status)
    else (body.getD [], "")

/-- The 16 compass points of `deg_to_compass` (line 128). -/
def compass_points : List String :=
  ["N", "NNE", "NE", "ENE", "E", "ESE", "SE", "SSE",
   "S", "SSW", "SW", "WSW", "W", "WNW", "NW", "NNW"]

/-- Python float modulo with a positive modulus: `x % m = x - m * floor (x / m)`,
the representative in `[0, m)`. -/
def pymod (x m : ℚ) : ℚ := x - m * ⌊x / m⌋

/-- Index computed by `deg_to_compass` for a reduced degree value `d`:
`int((d + 11.25) // 22.5) % 16` (line 128).  Both `//` and `int` act on a
non-negative whole value here, so they collapse to the integer floor, with
`Int.toNat` standing for the final conversion to a list index. -/
def compass_index (d : ℚ) : Nat :=
  (⌊(d + 45 / 4) / (45 / 2)⌋).toNat % 16

/-- Python float value as seen by `deg_to_compass`: either finite, or one of
the non-finite IEEE values that `float` can produce without raising (for
example from the strings "nan", "inf", "-inf"). -/
inductive PyFloat where
  | finite (q : ℚ)
  | nan
  | inf
  | neg_inf
deriving DecidableEq, Repr

/-- Python `% 360` on a float: a finite value reduces to its representative
in `[0, 360)`; `nan % 360`, `inf % 360` and `(-inf) % 360` all evaluate to
`nan` without raising, so non-finite values pass the try block of
`deg_to_compass` unharmed. -/
def pymod360 : PyFloat → PyFloat
  | .finite q => .finite (pymod q 360)
  | _ => .nan

/-- Function `deg_to_compass` (lines 125-128).  The argument is `none` when
`float(deg)` raises (the except path returning "-"), and `some f` with the
converted float value otherwise, possibly non-finite.  The try block covers
only `float(deg) % 360`; on the return line, `(d + 11.25) // 22.5` of a
non-finite `d` is `nan` again, and `int(nan)` raises an uncaught ValueError,
modelled as `Except.error`.  For finite `d` both `//` and `int` collapse to
the integer floor (`compass_index`); the in-range list access of the source
is rendered with `getD`, the bound `compass_index d < 16` being proved
below. -/
def deg_to_compass (deg : Option PyFloat) : Except String String :=
  match deg with
  | none => Except.ok "-"
  | some f =>
    match pymod360 f with
    | .finite d => Except.ok (compass_points.getD (compass_index d) "")
    | _ => Except.error "cannot convert float NaN to integer"

/-- Header status line of `header_panel` (lines 183-196), keeping the fields
the claims inspect: station id, observation time (with the Python `or` chain
over possibly-absent and possibly-empty fields), and the error suffix appended
exactly when the error string is nonempty.  The wall-clock `Now:` segment and
rich markup are environmental decoration and are omitted. -/
def header_panel (obs : Obs) (error : String) : String :=
  let station := (obs.lookup "stationID").getD "-"
  let obs_time :=
    pyOr ((obs.lookup "obsTimeLocal").getD "")
      (pyOr ((obs.lookup "obsTimeUtc").getD "") "-")
  let status := "Station: " ++ station ++ " | Obs: " ++ obs_time
  if error ≠ "" then status ++ " Error: " ++ error else status

/-- Rendered frame pushed to the terminal, abstracting the rich `Layout`
tree to the data the claims inspect: which mode layout was drawn, the header
line, and the snapshots the panels were built from.  `build_full_forecast_layout`
slices the first 12 forecast hours (line 453). -/
inductive Frame where
  | summary (header : String) (obs : Obs) (hourly : List Hourly)
  | fullForecast (hourly : List Hourly)
deriving DecidableEq, Repr

/-- Function `build_layout` (lines 488-518) restricted to the observable data:
in full-forecast mode delegate to `build_full_forecast_layout` (first 12
hours, no header error); otherwise draw the summary layout whose header is
`header_panel obs error`. -/
def build_layout (mode : DisplayMode) (obs : Obs) (error : String)
    (hourly : List Hourly) : Frame :=
  if mode.is_full_forecast then Frame.fullForecast (hourly.take 12)
  else Frame.summary (header_panel obs error) obs hourly

/-- Function `check_for_forecast_key` (lines 559-569) acting on the queue
contents and the display-mode state: dequeue commands until the queue is
empty or a `"toggle"` command is found; on `"toggle"`, call `toggle_forecast`
and return `True` immediately, leaving the rest of the queue pending.
Returns (result, new mode state, remaining queue). -/
def check_for_forecast_key : List String → DisplayMode →
    Bool × DisplayMode × List String
  | [], s => (false, s, [])
  | c :: rest, s =>
    if c = "toggle" then (true, s.toggle_forecast, rest)
    else check_for_forecast_key rest s

/-- Number of `"toggle"` commands in a queue. -/
def countToggle (q : List String) : Nat :=
  q.countP (fun c => decide (c = "toggle"))

/-- Refresh decision of the render loop body (lines 596-608): force a refresh
when the mode just changed, resetting the timer baseline; otherwise refresh in
summary mode once `now - last_update_time >= REFRESH_SECONDS`, updating the
baseline; otherwise no refresh and the baseline is untouched.  Returns
(should_refresh, new last_update_time). -/
def refresh_decision (changed full : Bool) (now lut rs : ℤ) : Bool × ℤ :=
  if changed then (true, now)
  else if !full && decide (now - lut ≥ rs) then (true, now)
  else (false, lut)

/-- State owned by `main` across iterations of the `while True` loop
(lines 573-614), together with the shared display-mode state and the
contents of the input queue. -/
structure LoopState where
  mode : DisplayMode
  queue : List String
  obs : Obs
  last_err : String
  hourly_data : List Hourly
  last_hourly_err : String
  last_update_time : ℤ
deriving DecidableEq, Repr

/-- Environment of one loop iteration: commands that arrived on the input
queue since the previous iteration, the current wall-clock time, and the
network responses the two providers would see if called this tick. -/
structure TickInput where
  cmds : List String
  now : ℤ
  obsResp : FetchResponse (List Obs)
  hourlyResp : FetchResponse (List Hourly)
deriving DecidableEq, Repr

/-- Observable events of one loop iteration: the frame pushed via
`live.update`, and how many provider-call pairs were performed (the loop body
calls `fetch_observation` and `fetch_hourly_forecast` together, at most
once per iteration). -/
structure TickTrace where
  frame : Frame
  fetch_pairs : Nat
deriving DecidableEq, Repr

/-- One iteration of the `while True` body of `main` (lines 585-614), in
source order: (1) `check_for_forecast_key` drains the queue up to the first
`"toggle"` (line 588); (2) `build_layout` + `live.update` push a frame built
from the current snapshots and `last_err or last_hourly_err` (lines 592-594);
(3) `has_mode_changed` / elapsed-time decide the refresh and update
`last_update_time` (lines 597-608); (4) if refreshing, both providers are
called and their results overwrite the snapshots and error strings
unconditionally (lines 610-612). -/
def tick (rs : ℤ) (inp : TickInput) (s : LoopState) : LoopState × TickTrace :=
  let dr := check_for_forecast_key (s.queue ++ inp.cmds) s.mode
  let frame :=
    build_layout dr.2.1 s.obs (pyOr s.last_err s.last_hourly_err) s.hourly_data
  let hc := dr.2.1.has_mode_changed
  let dec := refresh_decision hc.1 hc.2.is_full_forecast inp.now
    s.last_update_time rs
  if dec.1 then
    let ob := fetch_observation inp.obsResp
    let hf := fetch_hourly_forecast inp.hourlyResp
    (⟨hc.2, dr.2.2, ob.1, ob.2, hf.1, hf.2, dec.2⟩, ⟨frame, 1⟩)
  else
    (⟨hc.2, dr.2.2, s.obs, s.last_err, s.hourly_data, s.last_hourly_err,
      dec.2⟩, ⟨frame, 0⟩)

/-- Iterated loop: run one tick per input, collecting the traces. -/
def run (rs : ℤ) (s : LoopState) : List TickInput → LoopState × List TickTrace
  | [] => (s, [])
  | inp :: rest =>
    let r := tick rs inp s
    let rr := run rs r.1 rest
    (rr.1, r.2 :: rr.2)

/-- Operations of the `DisplayMode` interface used from the render loop, for
stating reachability: `toggle` = `toggle_forecast`, `consume` =
`has_mode_changed`, `readMode` = `is_full_forecast` (a pure read). -/
inductive Op where
  | toggle
  | consume
  | readMode
deriving DecidableEq, Repr

/-- Effect of one operation on the display-mode state. -/
def applyOp (s : DisplayMode) : Op → DisplayMode
  | .toggle => s.toggle_forecast
  | .consume => s.has_mode_changed.2
  | .readMode => s

/-- Effect of a sequence of operations, applied left to right. -/
def applyOps (s : DisplayMode) : List Op → DisplayMode
  | [] => s
  | o :: rest => applyOps (applyOp s o) rest

/-- Number of `toggle` operations after the last `consume` in the sequence;
`acc` counts toggles already pending when the sequence starts. -/
def togglesSince : List Op → Nat → Nat
  | [], acc => acc
  | .toggle :: rest, acc => togglesSince rest (acc + 1)
  | .consume :: rest, _ => togglesSince rest 0
  | .readMode :: rest, acc => togglesSince rest acc

/-- Concrete state for exercising the loop: summary mode, clean flag, a
nonempty observation snapshot and one forecast hour, timer baseline 0. -/
def s0C1 : LoopState :=
  ⟨DisplayMode.init, [], [("stationID", "KXYZ"), ("obsTimeLocal", "10:00")],
    "", [[("temp", "30")]], "", 0⟩

/-- Tick input at time 10 whose provider calls both raise. -/
def i1C1 : TickInput := ⟨[], 10, .exn "timeout", .exn "timeout"⟩

/-- Follow-up tick input at time 11 (timer not yet due again). -/
def i2C1 : TickInput := ⟨[], 11, .ok 200 none, .ok 200 none⟩

/-- Tick input at time 10 where only the observation provider fails while
the forecast provider succeeds. -/
def i3C1 : TickInput :=
  ⟨[], 10, .exn "timeout", .ok 200 (some [[("temp", "30")]])⟩

/-- Concrete state with empty snapshots and timer baseline 0. -/
def s0C4 : LoopState := ⟨DisplayMode.init, [], [], "", [], "", 0⟩

/-- Tick input at time 10 whose observation provider succeeds with one
record. -/
def inpC4 : TickInput :=
  ⟨[], 10, .ok 200 (some [[("temp", "30")]]), .ok 200 (some [])⟩

/-- Concrete state with a pending toggle command and timer baseline 0. -/
def sC5 : LoopState := ⟨DisplayMode.init, ["toggle"], [], "", [], "", 0⟩

/-- Tick input at time 1 (timer not due) whose provider calls both raise. -/
def inpC5 : TickInput := ⟨[], 1, .exn "down", .exn "down"⟩

/-- Concrete state in summary mode with clean flag and timer baseline 0. -/
def sC6 : LoopState := ⟨DisplayMode.init, [], [], "", [], "", 0⟩

/-- Tick input at time 10 with interval 5: the timer is due. -/
def inpC6 : TickInput :=
  ⟨[], 10, .ok 200 (some [[("t", "1")]]), .ok 200 (some [])⟩

/-- Concrete state frozen in full-forecast mode with clean flag. -/
def sC7 : LoopState :=
  ⟨⟨true, false⟩, [], [("stationID", "KXYZ")], "", [[("temp", "30")]], "", 0⟩

/-- Two command-free tick inputs far beyond any refresh interval. -/
def inpsC7 : List TickInput :=
  [⟨[], 100, .exn "down", .exn "down"⟩, ⟨[], 1000, .exn "down", .exn "down"⟩]

/-- Consuming the flag leaves it cleared. -/
theorem has_mode_changed_snd_flag (s : DisplayMode) :
    s.has_mode_changed.2.mode_changed = false := by
  cases s with
  | mk f m => cases m <;> rfl

/-- Consuming the flag does not alter the mode bit. -/
theorem has_mode_changed_snd_mode (s : DisplayMode) :
    s.has_mode_changed.2.full_forecast = s.full_forecast := by
  cases s with
  | mk f m => cases m <;> rfl

/-- Consuming the flag returns its prior value. -/
theorem has_mode_changed_fst (s : DisplayMode) :
    s.has_mode_changed.1 = s.mode_changed := by
  cases s with
  | mk f m => cases m <;> rfl

/-- Any positive number of toggles leaves the dirty flag set. -/
theorem toggles_succ_flag (n : Nat) : ∀ s : DisplayMode,
    (toggles (n + 1) s).mode_changed = true := by
  induction n with
  | zero => intro s; rfl
  | succ k ih => intro s; exact ih s.toggle_forecast

/-- C2 counterexample: starting from the initial (just-consumed) state, two
toggles (an even count) leave `ModeChangeFlag` set, while the claim requires
it to be false after any even number of toggles since the last consumption.
The mode itself does return to its pre-toggle value. -/
theorem C2_counterexample :
    (toggles 2 DisplayMode.init.has_mode_changed.2).mode_changed = true ∧
    (toggles 2 DisplayMode.init.has_mode_changed.2).full_forecast
      = DisplayMode.init.full_forecast := by
  decide

/-- C2 (amended): two consecutive toggles leave `DisplayMode` equal to its
pre-toggle value, and after `n` toggles since the last consumption the flag is
false for `n = 0` and true for every `n ≥ 1`, regardless of parity. -/
theorem C2_toggle_pair_and_flag (s : DisplayMode) (n : Nat) :
    s.toggle_forecast.toggle_forecast.full_forecast = s.full_forecast ∧
    (toggles 0 s.has_mode_changed.2).mode_changed = false ∧
    (toggles (n + 1) s.has_mode_changed.2).mode_changed = true := by
  refine ⟨?_, has_mode_changed_snd_flag s, toggles_succ_flag n _⟩
  simp [DisplayMode.toggle_forecast]

/-- C3 counterexample: with two toggle commands pending,
`check_for_forecast_key` consumes only the first and returns, leaving a
command in the queue, so not all commands pending at the start of the tick
are drained. -/
theorem C3_counterexample :
    (check_for_forecast_key ["toggle", "toggle"] DisplayMode.init).2.2
      ≠ [] := by
  decide

/-- C3 (amended): one call of `check_for_forecast_key` consumes queue entries
only up to and including the first `"toggle"` (or the whole queue when none is
present), applies `toggle_forecast` exactly once per consumed `"toggle"`, and
leaves the remaining commands pending; so the toggle commands consumed in a
call and the toggles applied in it agree exactly. -/
theorem C3_one_toggle_per_call (q : List String) (s : DisplayMode) :
    countToggle q
      = countToggle (check_for_forecast_key q s).2.2
        + (if (check_for_forecast_key q s).1 then 1 else 0) ∧
    (check_for_forecast_key q s).2.1
      = (if (check_for_forecast_key q s).1 then s.toggle_forecast else s) := by
  induction q with
  | nil => simp [check_for_forecast_key, countToggle]
  | cons c rest ih =>
    by_cases hc : c = "toggle"
    · subst hc
      simp [check_for_forecast_key, countToggle, List.countP_cons]
    · simpa [check_for_forecast_key, hc, countToggle, List.countP_cons]
        using ih

/-- C8: `has_mode_changed` returns the prior flag value, clears the flag
without touching the mode bit, and a second consecutive call returns false. -/
theorem C8_consume_reads_and_clears (s : DisplayMode) :
    s.has_mode_changed.1 = s.mode_changed ∧
    s.has_mode_changed.2.mode_changed = false ∧
    s.has_mode_changed.2.full_forecast = s.full_forecast ∧
    s.has_mode_changed.2.has_mode_changed.1 = false := by
  refine ⟨has_mode_changed_fst s, has_mode_changed_snd_flag s,
    has_mode_changed_snd_mode s, ?_⟩
  rw [has_mode_changed_fst, has_mode_changed_snd_flag]

/-- Flag value after a sequence of operations, as a function of the number of
toggles since the last consumption (with `acc` toggles already pending). -/
theorem applyOps_flag (ops : List Op) : ∀ (s : DisplayMode) (acc : Nat),
    s.mode_changed = decide (0 < acc) →
    (applyOps s ops).mode_changed = decide (0 < togglesSince ops acc) := by
  induction ops with
  | nil => intro s acc h; exact h
  | cons o rest ih =>
    intro s acc h
    cases o with
    | toggle =>
      exact ih s.toggle_forecast (acc + 1) (by simp [DisplayMode.toggle_forecast])
    | consume =>
      exact ih s.has_mode_changed.2 0 (by simp [has_mode_changed_snd_flag])
    | readMode => exact ih s acc h

/-- C9 counterexample: the state reached from the initial state by the
operation sequence [toggle, toggle] has the flag set although the mode equals
the mode at the last consumption point (here: at initialization, no
consumption having occurred), so the flag is not equivalent to the mode
having changed since the last consumption. -/
theorem C9_counterexample :
    (applyOps DisplayMode.init [Op.toggle, Op.toggle]).mode_changed = true ∧
    (applyOps DisplayMode.init [Op.toggle, Op.toggle]).full_forecast
      = DisplayMode.init.full_forecast := by
  decide

/-- C9 (amended): in every state reachable from the initial state by toggle,
consume and read operations, `ModeChangeFlag` is true if and only if at least
one toggle has occurred since the last consumption (or since initialization),
independently of whether those toggles restored the original mode. -/
theorem C9_flag_iff_toggle_since_consume (ops : List Op) :
    (applyOps DisplayMode.init ops).mode_changed
      = decide (0 < togglesSince ops 0) :=
  applyOps_flag ops DisplayMode.init 0 rfl

/-- Index bound for `deg_to_compass`: the computed list index is always below
16. -/
theorem compass_index_lt (d : ℚ) : compass_index d < 16 :=
  Nat.mod_lt _ (by norm_num)

/-- C10 counterexample: an input convertible to a non-finite float (such as
the string "nan" or "inf") passes the try block, since `nan % 360` is `nan`
and raises nothing, and the source then raises an uncaught ValueError at
`int(nan)` on the return line — so `deg_to_compass` does not return for
every input. -/
theorem C10_counterexample :
    deg_to_compass (some PyFloat.nan)
        = Except.error "cannot convert float NaN to integer" ∧
    deg_to_compass (some PyFloat.inf)
        = Except.error "cannot convert float NaN to integer" :=
  ⟨rfl, rfl⟩

/-- C10 (amended): `deg_to_compass` returns "-" when the input is not
convertible to a float, and one of the 16 compass-point strings when it
converts to a finite float — the computed index `int((d+11.25)//22.5)%16`
lies in the range 0 to 15 for every finite degree value, negative and above
360 included; for inputs converting to non-finite floats it raises at `int`
instead of returning. -/
theorem C10_deg_to_compass_finite_total :
    deg_to_compass none = Except.ok "-" ∧
    (∀ q : ℚ, compass_index (pymod q 360) < 16) ∧
    ∀ q : ℚ, ∃ c ∈ compass_points,
      deg_to_compass (some (PyFloat.finite q)) = Except.ok c := by
  refine ⟨rfl, fun q => compass_index_lt _, fun q => ?_⟩
  refine ⟨compass_points.getD (compass_index (pymod q 360)) "", ?_, rfl⟩
  have h : compass_index (pymod q 360) < 16 := compass_index_lt _
  set i := compass_index (pymod q 360) with hi
  interval_cases i <;> decide

/-- Error paths of `fetch_observation` all return the empty record. -/
theorem fetch_observation_error_empty (resp : FetchResponse (List Obs))
    (h : (fetch_observation resp).2 ≠ "") :
    (fetch_observation resp).1 = [] := by
  cases resp with
  | exn e => rfl
  | ok status body =>
    by_cases hs : status = 200
    · subst hs
      cases hb : body.getD [] with
      | nil => simp [fetch_observation, hb]
      | cons o rest => exact (h (by simp [fetch_observation, hb])).elim
    · simp [fetch_observation, hs]

/-- Error paths of `fetch_hourly_forecast` all return the empty list. -/
theorem fetch_hourly_forecast_error_empty (resp : FetchResponse (List Hourly))
    (h : (fetch_hourly_forecast resp).2 ≠ "") :
    (fetch_hourly_forecast resp).1 = [] := by
  cases resp with
  | exn e => rfl
  | ok status body =>
    by_cases hs : status = 200
    · exact (h (by simp [fetch_hourly_forecast, hs])).elim
    · simp [fetch_hourly_forecast, hs]

/-- Snapshots after a refreshing tick are exactly the provider results. -/
theorem tick_refreshed (rs : ℤ) (inp : TickInput) (s : LoopState)
    (h : (tick rs inp s).2.fetch_pairs = 1) :
    (tick rs inp s).1.obs = (fetch_observation inp.obsResp).1 ∧
    (tick rs inp s).1.last_err = (fetch_observation inp.obsResp).2 ∧
    (tick rs inp s).1.hourly_data = (fetch_hourly_forecast inp.hourlyResp).1 ∧
    (tick rs inp s).1.last_hourly_err
      = (fetch_hourly_forecast inp.hourlyResp).2 := by
  revert h
  simp only [tick]
  split <;> intro h
  · exact ⟨rfl, rfl, rfl, rfl⟩
  · exact absurd h (by simp)

/-- Nonempty errors change the header status line only by an appended
suffix. -/
theorem header_panel_error_eq (obs : Obs) (e : String) (he : e ≠ "") :
    header_panel obs e = header_panel obs "" ++ " Error: " ++ e := by
  simp [header_panel, he]

/-- Nonempty errors are appended at the end of the header status line. -/
theorem header_panel_error_suffix (obs : Obs) (e : String) (he : e ≠ "") :
    ∃ a, header_panel obs e = a ++ e :=
  ⟨header_panel obs "" ++ " Error: ", by rw [header_panel_error_eq obs e he]⟩

/-- C1 counterexample: in a tick whose provider calls fail, the observation
and forecast snapshots are replaced by the empty results, so the frame
displayed after the tick (here: the next tick, time 11, no further fetch)
shows empty snapshots although the frame before showed nonempty ones — the
stale snapshot is not retained. -/
theorem C1_counterexample :
    (tick 5 i1C1 s0C1).2.fetch_pairs = 1 ∧
    (tick 5 i1C1 s0C1).1.last_err = "Error: timeout" ∧
    (tick 5 i1C1 s0C1).1.obs = [] ∧
    (tick 5 i1C1 s0C1).1.hourly_data = [] ∧
    s0C1.obs ≠ [] ∧
    s0C1.hourly_data ≠ [] ∧
    (tick 5 i2C1 (tick 5 i1C1 s0C1).1).2.frame
      = Frame.summary (header_panel [] "Error: timeout") [] [] := by
  decide

/-- C1 (amended): provider failures replace snapshots independently.  In a
refreshing tick, if the observation call returns a nonempty error, the
observation snapshot after the tick is the empty result accompanying the
error (the stale snapshot is replaced, not retained) and the error string is
a suffix of the header the summary layout builds from the post-tick state;
and if the forecast call returns a nonempty error, the forecast snapshot
after the tick is likewise the empty result, with its error surfacing in
that header when the observation call succeeded.  Either conjunct applies on
its own, so a single failing provider suffices.  The frame pushed during the
error tick itself was built before the fetch and still shows the pre-tick
snapshots. -/
theorem C1_error_replaces_snapshot (rs : ℤ) (inp : TickInput) (s : LoopState)
    (hfetch : (tick rs inp s).2.fetch_pairs = 1) :
    ((fetch_observation inp.obsResp).2 ≠ "" →
      (tick rs inp s).1.obs = [] ∧
      (tick rs inp s).1.last_err = (fetch_observation inp.obsResp).2 ∧
      ∃ a, header_panel (tick rs inp s).1.obs
            (pyOr (tick rs inp s).1.last_err
              (tick rs inp s).1.last_hourly_err)
          = a ++ (fetch_observation inp.obsResp).2) ∧
    ((fetch_hourly_forecast inp.hourlyResp).2 ≠ "" →
      (tick rs inp s).1.hourly_data = [] ∧
      (tick rs inp s).1.last_hourly_err
        = (fetch_hourly_forecast inp.hourlyResp).2 ∧
      ((fetch_observation inp.obsResp).2 = "" →
        ∃ a, header_panel (tick rs inp s).1.obs
              (pyOr (tick rs inp s).1.last_err
                (tick rs inp s).1.last_hourly_err)
            = a ++ (fetch_hourly_forecast inp.hourlyResp).2)) := by
  obtain ⟨h1, h2, h3, h4⟩ := tick_refreshed rs inp s hfetch
  constructor
  · intro herr
    have hobs : (tick rs inp s).1.obs = [] := by
      rw [h1, fetch_observation_error_empty _ herr]
    refine ⟨hobs, h2, ?_⟩
    rw [h2]
    unfold pyOr
    rw [if_neg herr]
    exact header_panel_error_suffix _ _ herr
  · intro herr2
    have hhd : (tick rs inp s).1.hourly_data = [] := by
      rw [h3, fetch_hourly_forecast_error_empty _ herr2]
    refine ⟨hhd, h4, ?_⟩
    intro hok
    rw [h2, h4, hok]
    unfold pyOr
    rw [if_pos rfl]
    exact header_panel_error_suffix _ _ herr2

/-- C1 witness: at time 10 with interval 5 a refresh is due, the observation
provider raises while the forecast provider succeeds, and the theorem applies
to this single-failure tick: the observation snapshot of `s0C1` is replaced
by the empty result and the error surfaces in the post-tick header. -/
theorem C1_witness :
    ((fetch_observation i3C1.obsResp).2 ≠ "" →
      (tick 5 i3C1 s0C1).1.obs = [] ∧
      (tick 5 i3C1 s0C1).1.last_err = (fetch_observation i3C1.obsResp).2 ∧
      ∃ a, header_panel (tick 5 i3C1 s0C1).1.obs
            (pyOr (tick 5 i3C1 s0C1).1.last_err
              (tick 5 i3C1 s0C1).1.last_hourly_err)
          = a ++ (fetch_observation i3C1.obsResp).2) ∧
    ((fetch_hourly_forecast i3C1.hourlyResp).2 ≠ "" →
      (tick 5 i3C1 s0C1).1.hourly_data = [] ∧
      (tick 5 i3C1 s0C1).1.last_hourly_err
        = (fetch_hourly_forecast i3C1.hourlyResp).2 ∧
      ((fetch_observation i3C1.obsResp).2 = "" →
        ∃ a, header_panel (tick 5 i3C1 s0C1).1.obs
              (pyOr (tick 5 i3C1 s0C1).1.last_err
                (tick 5 i3C1 s0C1).1.last_hourly_err)
            = a ++ (fetch_hourly_forecast i3C1.hourlyResp).2)) :=
  C1_error_replaces_snapshot 5 i3C1 s0C1 (by decide)

/-- C4 counterexample: at time 10 with interval 5 a refresh is due and the
observation provider returns a fresh record, yet the frame pushed in that
same tick still shows the empty pre-tick snapshot — the frame does not
reflect the data fetched in the same tick. -/
theorem C4_counterexample :
    (tick 5 inpC4 s0C4).2.fetch_pairs = 1 ∧
    (tick 5 inpC4 s0C4).1.obs = [("temp", "30")] ∧
    (tick 5 inpC4 s0C4).2.frame
      = Frame.summary (header_panel [] "") [] [] := by
  decide

/-- C4 (amended): within a tick the order is: drain commands, build and push
the layout from the current snapshots and error strings, then consult the
refresh decision and fetch when due — so the frame pushed in a tick always
reflects the snapshots from before that tick's fetch, and freshly fetched
data first appears in the next tick's frame. -/
theorem C4_frame_before_fetch (rs : ℤ) (inp : TickInput) (s : LoopState) :
    (tick rs inp s).2.frame
      = build_layout (check_for_forecast_key (s.queue ++ inp.cmds) s.mode).2.1
          s.obs (pyOr s.last_err s.last_hourly_err) s.hourly_data := by
  simp only [tick]
  split <;> rfl

/-- C5: a tick that consumes the mode-changed flag as true performs exactly
one provider-pair fetch and resets the refresh baseline to the current time,
whether or not the fetch succeeds and whether or not the time-based boundary
also elapsed in the same tick. -/
theorem C5_mode_change_forces_fetch (rs : ℤ) (inp : TickInput) (s : LoopState)
    (h : (check_for_forecast_key (s.queue ++ inp.cmds)
        s.mode).2.1.has_mode_changed.1 = true) :
    (tick rs inp s).2.fetch_pairs = 1 ∧
    (tick rs inp s).1.last_update_time = inp.now ∧
    (tick rs inp s).1.obs = (fetch_observation inp.obsResp).1 ∧
    (tick rs inp s).1.last_err = (fetch_observation inp.obsResp).2 ∧
    (tick rs inp s).1.hourly_data = (fetch_hourly_forecast inp.hourlyResp).1 ∧
    (tick rs inp s).1.last_hourly_err
      = (fetch_hourly_forecast inp.hourlyResp).2 := by
  simp [tick, refresh_decision, h]

/-- C5 witness: a pending toggle command at time 1 (interval 5, baseline 0,
timer not due) forces the fetch and rebaselines the timer, even though both
providers fail. -/
theorem C5_witness :
    (tick 5 inpC5 sC5).2.fetch_pairs = 1 ∧
    (tick 5 inpC5 sC5).1.last_update_time = inpC5.now ∧
    (tick 5 inpC5 sC5).1.obs = (fetch_observation inpC5.obsResp).1 ∧
    (tick 5 inpC5 sC5).1.last_err = (fetch_observation inpC5.obsResp).2 ∧
    (tick 5 inpC5 sC5).1.hourly_data
      = (fetch_hourly_forecast inpC5.hourlyResp).1 ∧
    (tick 5 inpC5 sC5).1.last_hourly_err
      = (fetch_hourly_forecast inpC5.hourlyResp).2 :=
  C5_mode_change_forces_fetch 5 inpC5 sC5 (by decide)

/-- C6: in a tick whose mode-changed flag is consumed as false, a fetch
occurs if and only if the mode after draining is summary and the elapsed time
since the baseline is at least the refresh interval; the baseline advances to
the current time exactly when the fetch occurs. -/
theorem C6_timer_refresh_iff (rs : ℤ) (inp : TickInput) (s : LoopState)
    (h : (check_for_forecast_key (s.queue ++ inp.cmds)
        s.mode).2.1.has_mode_changed.1 = false) :
    ((tick rs inp s).2.fetch_pairs = 1 ↔
      ((check_for_forecast_key (s.queue ++ inp.cmds)
          s.mode).2.1.full_forecast = false ∧
        rs ≤ inp.now - s.last_update_time)) ∧
    (tick rs inp s).1.last_update_time
      = (if (tick rs inp s).2.fetch_pairs = 1 then inp.now
          else s.last_update_time) := by
  have hm := has_mode_changed_snd_mode
    (check_for_forecast_key (s.queue ++ inp.cmds) s.mode).2.1
  by_cases hf : (check_for_forecast_key (s.queue ++ inp.cmds)
      s.mode).2.1.full_forecast = true
  · simp [tick, refresh_decision, h, DisplayMode.is_full_forecast, hm, hf]
  · by_cases ht : rs ≤ inp.now - s.last_update_time
    · simp [tick, refresh_decision, h, DisplayMode.is_full_forecast, hm, hf, ht]
    · simp [tick, refresh_decision, h, DisplayMode.is_full_forecast, hm, hf, ht]

/-- C6 witness: summary mode, clean flag, baseline 0, time 10, interval 5 —
the timer is due, the fetch occurs, and the baseline advances to 10. -/
theorem C6_witness :
    ((tick 5 inpC6 sC6).2.fetch_pairs = 1 ↔
      ((check_for_forecast_key (sC6.queue ++ inpC6.cmds)
          sC6.mode).2.1.full_forecast = false ∧
        (5 : ℤ) ≤ inpC6.now - sC6.last_update_time)) ∧
    (tick 5 inpC6 sC6).1.last_update_time
      = (if (tick 5 inpC6 sC6).2.fetch_pairs = 1 then inpC6.now
          else sC6.last_update_time) :=
  C6_timer_refresh_iff 5 inpC6 sC6 (by decide)

/-- C7: while the state sits in full-forecast mode with a clean flag and no
commands arrive, no tick of the loop performs a fetch, for any number of
ticks and any elapse of time, and the snapshots stay frozen. -/
theorem C7_full_forecast_frozen (rs : ℤ) (inps : List TickInput) :
    ∀ s : LoopState,
    s.mode.full_forecast = true →
    s.mode.mode_changed = false →
    s.queue = [] →
    (∀ i ∈ inps, i.cmds = []) →
    (∀ tr ∈ (run rs s inps).2, tr.fetch_pairs = 0) ∧
    (run rs s inps).1.obs = s.obs ∧
    (run rs s inps).1.hourly_data = s.hourly_data := by
  induction inps with
  | nil =>
    intro s _ _ _ _
    simp [run]
  | cons i rest ih =>
    intro s hmode hflag hq hcmds
    have hci : i.cmds = [] := hcmds i (by simp)
    have hstep : tick rs i s
        = (s, ⟨Frame.fullForecast (s.hourly_data.take 12), 0⟩) := by
      obtain ⟨⟨ff, mc⟩, qu, ob, e1, hd, e2, lut⟩ := s
      dsimp only at hmode hflag hq
      subst hmode hflag hq
      simp [tick, hci, check_for_forecast_key, DisplayMode.has_mode_changed,
        refresh_decision, DisplayMode.is_full_forecast, build_layout]
    have hrest : ∀ j ∈ rest, j.cmds = [] := fun j hj => hcmds j (by simp [hj])
    obtain ⟨ha, hb, hc⟩ := ih s hmode hflag hq hrest
    refine ⟨?_, ?_, ?_⟩
    · intro tr htr
      simp only [run, hstep, List.mem_cons] at htr
      rcases htr with h | h
      · subst h; rfl
      · exact ha tr h
    · simp only [run, hstep]
      exact hb
    · simp only [run, hstep]
      exact hc

/-- C7 witness: starting frozen in full-forecast mode, two command-free ticks
at times 100 and 1000 (interval 5) perform no fetch and leave the snapshots
untouched. -/
theorem C7_witness :
    (∀ tr ∈ (run 5 sC7 inpsC7).2, tr.fetch_pairs = 0) ∧
    (run 5 sC7 inpsC7).1.obs = sC7.obs ∧
    (run 5 sC7 inpsC7).1.hourly_data = sC7.hourly_data :=
  C7_full_forecast_frozen 5 inpsC7 sC7 (by decide) (by decide) (by decide)
    (by decide)

end Argard
